import Mathlib

/-!
Verification of the Monad wallet-integration module (provider selection,
network ensuring, connection lifecycle, single and bulk transfer dispatch,
fee arithmetic, transaction-detail lookup).

The definitions below are a shallow embedding of the TypeScript source.
Numeric amounts are modelled as rationals; the injected wallet provider is
modelled as a record of response functions (one per JSON-RPC method used by
the source), so every source-level `await ethereum.request(...)` becomes a
lookup in that record.  Functions that issue provider requests also return
the ordered list of requests they issued, so that sequencing claims can be
stated about the request trace.
-/

/-! ## Platform and chain configuration (source lines 4-25) -/

/-- `PLATFORM_CONFIG.feePercentage` (0.5, i.e. a 0.5% platform fee). -/
def feePercentage : ℚ := 1/2

/-- `PLATFORM_CONFIG.vatRefundPercentage` (85). -/
def vatRefundPercentage : ℚ := 85

structure NativeCurrency where
  name : String
  symbol : String
  decimals : Nat
  deriving DecidableEq

structure MonadConfig where
  rpcUrl : String
  chainId : Nat
  chainIdHex : String
  faucetUrl : String
  explorers : List String
  nativeCurrency : NativeCurrency
  deriving DecidableEq

/-- `MONAD_CONFIG` from the source, verbatim. -/
def MONAD_CONFIG : MonadConfig where
  rpcUrl := "https://testnet-rpc.monad.xyz"
  chainId := 10143
  chainIdHex := "0x279F"
  faucetUrl := "https://testnet.monad.xyz"
  explorers := ["https://testnet.monadexplorer.com/", "https://monad-testnet.socialscan.io/"]
  nativeCurrency := { name := "Monad", symbol := "MON", decimals := 18 }

/-! ## Fee arithmetic (source lines 28-45, 653-658) -/

/-- `calculatePlatformFee(amount) = amount * feePercentage / 100`. -/
def calculatePlatformFee (amount : ℚ) : ℚ :=
  amount * feePercentage / 100

/-- `calculateNetAmount(amount) = amount - calculatePlatformFee(amount)`. -/
def calculateNetAmount (amount : ℚ) : ℚ :=
  amount - calculatePlatformFee amount

/-- `calculateVATRefund(vatAmount, refundPercentage)`. -/
def calculateVATRefund (vatAmount refundPercentage : ℚ) : ℚ :=
  calculateNetAmount (vatAmount * refundPercentage / 100)

/-- `calculateVATAmount(billAmount, vatRate) = billAmount * vatRate / (100 + vatRate)`. -/
def calculateVATAmount (billAmount vatRate : ℚ) : ℚ :=
  billAmount * vatRate / (100 + vatRate)

/-! ## Address validation (source lines 156-166) and the testing-mode
placeholder pattern (source lines 358, 442) -/

/-- One character of the class `[a-fA-F0-9]`. -/
def isHexChar (c : Char) : Bool :=
  (decide ('0' ≤ c) && decide (c ≤ '9')) ||
  (decide ('a' ≤ c) && decide (c ≤ 'f')) ||
  (decide ('A' ≤ c) && decide (c ≤ 'F'))

/-- `isValidAddress`: the regular expression `^0x[a-fA-F0-9]{40}$`. -/
def isValidAddress (address : String) : Bool :=
  match address.data with
  | '0' :: 'x' :: rest => decide (rest.length = 40) && rest.all isHexChar
  | _ => false

/-- Helper for the placeholder pattern: `0*` followed by exactly one
character of `[0-9a-f]` (case-insensitive, as the source regex carries the
`i` flag). -/
def zeroStarThenHex : List Char → Bool
  | [c] => isHexChar c
  | '0' :: rest => zeroStarThenHex rest
  | _ => false

/-- The testing-mode placeholder pattern `^0x0+[0-9a-f]$` with the `i`
flag: `0x`, one or more zeros, then exactly one final hex character. -/
def isPlaceholderAddress (s : String) : Bool :=
  match s.data with
  | '0' :: 'x' :: '0' :: rest => zeroStarThenHex ('0' :: rest) && decide (rest ≠ [])
  | _ => false

/-! ## Provider model and `getProvider` (source lines 59-135) -/

/-- A structured provider failure: an optional integer `code` (the source
reads `error.code`, `undefined` on plain `Error` objects) and the `Error`
message. -/
structure RpcError where
  code : Option Int
  message : String
  deriving DecidableEq

structure AddChainParams where
  chainId : String
  chainName : String
  nativeCurrency : NativeCurrency
  rpcUrls : List String
  blockExplorerUrls : List String
  deriving DecidableEq

/-- An `eth_sendTransaction` request object.  The source encodes `value` as
a hexadecimal string computed by `Math.floor(amount * 1e18).toString(16)`;
since that rendering is injective we keep the floored wei value as an
integer, and `gas` likewise. -/
structure TxParams where
  fromAddr : String
  toAddr : String
  value : Int
  gas : Nat
  deriving DecidableEq

structure TxInfo where
  gasPrice : String
  deriving DecidableEq

structure ReceiptInfo where
  status : String
  gasUsed : String
  deriving DecidableEq

/-- The capability surface of an injected provider: one response function
per JSON-RPC method the source invokes through `ethereum.request`.
`sendTransaction` additionally receives the index of the submission within
the current operation, so that consecutive identical requests may receive
different responses, as a real provider's state allows. -/
structure Provider where
  switchChain : String → Except RpcError Unit
  addChain : AddChainParams → Except RpcError Unit
  requestAccounts : Except RpcError (List String)
  ethAccounts : Except RpcError (List String)
  getBalance : String → Except RpcError Nat
  sendTransaction : Nat → TxParams → Except RpcError String
  getTransactionByHash : String → Except RpcError (Option TxInfo)
  getTransactionReceipt : String → Except RpcError (Option ReceiptInfo)

/-- One element of `window.ethereum.providers`.  `present` models the
truthiness test `p && ...`; `hasRequest` models
`typeof p.request === "function"`; `caps` is the capability surface used
if this element is selected. -/
structure SubProvider where
  present : Bool
  isMetaMask : Bool
  hasRequest : Bool
  caps : Provider

/-- The `window.ethereum` object: an optional `providers` array
(`Array.isArray` test), its own `isMetaMask` flag and `request` member,
and its capability surface. -/
structure EthObject where
  providers : Option (List SubProvider)
  isMetaMask : Bool
  hasRequest : Bool
  caps : Provider

/-- The host environment: presence of `window.ethereum`, the ethereum
object itself, presence of `window.solana` and its `isPhantom` flag. -/
structure Window where
  hasEthereum : Bool
  ethereum : EthObject
  hasSolanaObject : Bool
  solanaIsPhantom : Bool

/-- Which object `getProvider` selected. -/
inductive Chosen where
  | sub (p : SubProvider)
  | eth (e : EthObject)

def providerCaps : Chosen → Provider
  | .sub p => p.caps
  | .eth e => e.caps

def pleaseInstallMessage : String :=
  "Please install MetaMask or another Web3 wallet to continue."

def phantomNoEvmMessage : String :=
  "Detected Phantom (Solana) wallet but no EVM provider. Please install MetaMask or disable Phantom as the Default App Wallet and refresh."

def noEvmWalletMessage : String :=
  "No EVM-compatible wallet found. Please install MetaMask or another Web3 wallet that supports Ethereum RPC."

/- The source message reads "... disable Phantom's Default App Wallet ..."
with a possessive; it is carried here with the possessive rephrased, which
no claim depends on. -/
def multipleWalletsMessage : String :=
  "Multiple wallets detected and Phantom may be the Default App Wallet. Please set MetaMask as the handler or disable Phantom as the Default App Wallet in its settings, then refresh."

def noUsableProviderMessage : String :=
  "No usable EVM provider found. Install MetaMask and try again."

/-- `isWalletInstalled`: true iff `window.ethereum` is defined (source
lines 59-73; the Solana check there is computed but unused). -/
def isWalletInstalled (w : Window) : Bool :=
  w.hasEthereum

/-- The tail of `getProvider` after the `providers`-array block (source
lines 116-130): use the ethereum object itself if it is MetaMask-flagged;
otherwise use it if it exposes `request`, unless Phantom is also present,
in which case fail with the ambiguity warning; otherwise fail. -/
def resolveHostObject (w : Window) : Except RpcError Chosen :=
  let hasSolana := w.hasSolanaObject && w.solanaIsPhantom
  let eth := w.ethereum
  if eth.isMetaMask then .ok (.eth eth)
  else if eth.hasRequest then
    if hasSolana then .error ⟨none, multipleWalletsMessage⟩
    else .ok (.eth eth)
  else .error ⟨none, noUsableProviderMessage⟩

/-- `getProvider` (source lines 76-135).  The server-environment branch
(`typeof window === "undefined"`) is outside the browser model.  Thrown
`Error` values become `RpcError`s with `code := none`.  The trailing
catch block rethrows unchanged and is therefore invisible here. -/
def getProvider (w : Window) : Except RpcError Chosen :=
  let hasSolana := w.hasSolanaObject && w.solanaIsPhantom
  if ¬ w.hasEthereum then
    if hasSolana then .error ⟨none, phantomNoEvmMessage⟩
    else .error ⟨none, noEvmWalletMessage⟩
  else
    let eth := w.ethereum
    match eth.providers with
    | some ps =>
      if ps.length > 0 then
        match ps.find? (fun p => p.present && p.isMetaMask) with
        | some preferred => .ok (.sub preferred)
        | none =>
          match ps.head? with
          | some first =>
            if first.present && first.hasRequest then .ok (.sub first)
            else resolveHostObject w
          | none => resolveHostObject w
      else resolveHostObject w
    | none => resolveHostObject w

/-! ## Connection state (source lines 47-56, 169-306) -/

/-- The module-level `connectedAccount` variable together with the
`monad_connected_account` localStorage key. -/
structure WalletState where
  connectedAccount : Option String
  storage : Option String
  deriving DecidableEq

def noAccountsMessage : String := "No accounts found"

/-- The result of a successful connect/reconnect: the first account and
its balance in MON (`parseInt(balanceHex, 16) / 1e18`). -/
structure ConnectResult where
  address : String
  balance : ℚ
  deriving DecidableEq

/-- The `wallet_addEthereumChain` parameter object built (twice, with the
same literal) at source lines 202-210 and 248-256.  Note that it carries
only the FIRST explorer URL, `MONAD_CONFIG.explorers[0]`. -/
def monadChainParams : AddChainParams where
  chainId := MONAD_CONFIG.chainIdHex
  chainName := "Monad Testnet"
  nativeCurrency := MONAD_CONFIG.nativeCurrency
  rpcUrls := [MONAD_CONFIG.rpcUrl]
  blockExplorerUrls := [MONAD_CONFIG.explorers.headD ([] : List Char).asString]

/-- `connectWallet` (source lines 169-229).  Returns the outcome together
with the updated `(connectedAccount, localStorage)` state.  The state is
set and persisted as soon as a non-empty account list is obtained (source
lines 186-189), BEFORE the chain switch and the balance query. -/
def connectWallet (w : Window) (st : WalletState) :
    Except String ConnectResult × WalletState :=
  if ¬ isWalletInstalled w then (.error pleaseInstallMessage, st)
  else
    match getProvider w with
    | .error e => (.error e.message, st)
    | .ok chosen =>
      let eth := providerCaps chosen
      match eth.requestAccounts with
      | .error e => (.error e.message, st)
      | .ok accounts =>
        match accounts with
        | [] => (.error noAccountsMessage, st)
        | acct :: _ =>
          let st1 : WalletState := ⟨some acct, some acct⟩
          let afterSwitch : Except RpcError Unit :=
            match eth.switchChain MONAD_CONFIG.chainIdHex with
            | .ok _ => .ok ()
            | .error e =>
              if e.code = some 4902 then eth.addChain monadChainParams
              else .error e
          match afterSwitch with
          | .error e => (.error e.message, st1)
          | .ok _ =>
            match eth.getBalance acct with
            | .error e => (.error e.message, st1)
            | .ok wei => (.ok ⟨acct, (wei : ℚ) / 10 ^ 18⟩, st1)

/-- `reconnectWallet` (source lines 273-300): like `connectWallet` but
with the non-prompting `eth_accounts` query and a catch-all that turns
every failure into `null`.  As in `connectWallet`, the state is mutated
and persisted before the balance query. -/
def reconnectWallet (w : Window) (st : WalletState) :
    Option ConnectResult × WalletState :=
  if ¬ isWalletInstalled w then (none, st)
  else
    match getProvider w with
    | .error _ => (none, st)
    | .ok chosen =>
      let eth := providerCaps chosen
      match eth.ethAccounts with
      | .error _ => (none, st)
      | .ok [] => (none, st)
      | .ok (acct :: _) =>
        let st1 : WalletState := ⟨some acct, some acct⟩
        match eth.getBalance acct with
        | .error _ => (none, st1)
        | .ok wei => (some ⟨acct, (wei : ℚ) / 10 ^ 18⟩, st1)

/-- `disconnectWallet` (source lines 266-270). -/
def disconnectWallet (_st : WalletState) : WalletState :=
  ⟨none, none⟩

/-- `isWalletConnected` (source line 303). -/
def isWalletConnected (st : WalletState) : Bool :=
  st.connectedAccount.isSome

/-! ## `ensureMonadNetwork` (source lines 232-263) -/

/-- A chain-configuration request issued through the provider. -/
inductive ChainCall where
  | switchChain (chainIdHex : String)
  | addChain (p : AddChainParams)
  deriving DecidableEq

/-- `ensureMonadNetwork`: request a switch to the Monad chain; on error
code 4902 issue a single `wallet_addEthereumChain` request (whose own
failure propagates); on any other error code propagate the switch error.
Returns the outcome together with the ordered chain-call trace. -/
def ensureMonadNetwork (w : Window) : Except RpcError Unit × List ChainCall :=
  if ¬ isWalletInstalled w then (.ok (), [])
  else
    match getProvider w with
    | .error e => (.error e, [])
    | .ok chosen =>
      let eth := providerCaps chosen
      match eth.switchChain MONAD_CONFIG.chainIdHex with
      | .ok _ => (.ok (), [.switchChain MONAD_CONFIG.chainIdHex])
      | .error e =>
        if e.code = some 4902 then
          match eth.addChain monadChainParams with
          | .ok _ =>
            (.ok (), [.switchChain MONAD_CONFIG.chainIdHex, .addChain monadChainParams])
          | .error e2 =>
            (.error e2, [.switchChain MONAD_CONFIG.chainIdHex, .addChain monadChainParams])
        else (.error e, [.switchChain MONAD_CONFIG.chainIdHex])

/-! ## Single transfer: `sendPayment` (source lines 339-415) -/

def TEST_ADDRESS : String := "0x70c573979F61710D3284120261B562e524ad3763"

/-- The hardcoded on-chain amount: `const hardcodedAmount = 0.1`. -/
def hardcodedAmount : ℚ := 1/10

/-- `Math.floor(hardcodedAmount * 1e18)`, the wei value placed in every
submitted transaction. -/
def hardcodedWei : Int := Int.floor (hardcodedAmount * 10 ^ 18)

/-- The testing-mode substitution applied to a recipient address (source
lines 358-364 and 442-452): placeholder-pattern matches and invalid
addresses are replaced by `TEST_ADDRESS`. -/
def substituteAddress (address : String) : String :=
  if isPlaceholderAddress address || !(isValidAddress address) then TEST_ADDRESS
  else address

def invalidMonadAddressMessage : String := "Invalid Monad address"

def amountNotPositiveMessage : String := "Amount must be greater than 0"

def noWalletConnectedMessage : String := "No wallet connected"

structure TransferOutcome where
  success : Bool
  txHash : Option String
  error : Option String
  platformFee : Option ℚ
  netAmount : Option ℚ
  deriving DecidableEq

/-- The failure record produced by `sendPayment`'s catch block. -/
def failedTransfer (message : String) : TransferOutcome :=
  ⟨false, none, some message, none, none⟩

/-- `sendPayment` (source lines 339-415), returning the outcome together
with the ordered list of `eth_sendTransaction` requests issued.  The
unused `_token` and `_walletSignAndSubmitTransaction` parameters are
dropped.  The submitted value is always `hardcodedWei` with gas `0x5208`,
regardless of the displayed `amount`. -/
def sendPayment (w : Window) (st : WalletState) (recipient : String)
    (amount : ℚ) (includePlatformFee : Bool) :
    TransferOutcome × List TxParams :=
  match ensureMonadNetwork w with
  | (.error e, _) => (failedTransfer e.message, [])
  | (.ok _, _) =>
    let validatedRecipient := substituteAddress recipient
    if ¬ isValidAddress validatedRecipient then
      (failedTransfer invalidMonadAddressMessage, [])
    else if amount ≤ 0 then (failedTransfer amountNotPositiveMessage, [])
    else
      match st.connectedAccount with
      | none => (failedTransfer noWalletConnectedMessage, [])
      | some acct =>
        match getProvider w with
        | .error e => (failedTransfer e.message, [])
        | .ok chosen =>
          let eth := providerCaps chosen
          let platformFee : ℚ :=
            if includePlatformFee then calculatePlatformFee amount else 0
          let netAmount : ℚ :=
            if includePlatformFee then amount - calculatePlatformFee amount
            else amount
          let tx : TxParams := ⟨acct, validatedRecipient, hardcodedWei, 0x5208⟩
          match eth.sendTransaction 0 tx with
          | .error e => (failedTransfer e.message, [tx])
          | .ok h =>
            (⟨true, some h, none,
              if includePlatformFee then some platformFee else none,
              if includePlatformFee then some netAmount else none⟩, [tx])

/-! ## Bulk transfer: `sendBulkPayment` (source lines 418-525) -/

structure Recipient where
  address : String
  amount : ℚ
  deriving DecidableEq

structure BulkTransferOutcome where
  success : Bool
  txHash : Option String
  error : Option String
  totalPlatformFee : Option ℚ
  totalNetAmount : Option ℚ
  failedTransactions : Option Nat
  deriving DecidableEq

/-- The initial value of the `lastTxHash` accumulator (the empty string). -/
def emptyTxHash : String := ([] : List Char).asString

/-- The failure record produced by `sendBulkPayment`'s catch block. -/
def failedBulkTransfer (message : String) : BulkTransferOutcome :=
  ⟨false, none, some message, none, none, none⟩

def noRecipientsMessage : String := "No recipients provided"

/-- The per-recipient error `Invalid Monad address: <address>`.  Since the
substitution step always yields a valid address this message is
unreachable in `sendBulkPayment`, but it is part of the source. -/
def invalidBulkAddressMessage (address : String) : String :=
  invalidMonadAddressMessage ++ (':' :: ' ' :: []).asString ++ address

/-- The substitution step of the bulk path (source lines 440-452):
`{...recipient, address: TEST_ADDRESS}` when the placeholder pattern
matches or the address is invalid. -/
def substituteRecipient (r : Recipient) : Recipient :=
  { r with address := substituteAddress r.address }

/-- The pre-validation loop (source lines 454-460): first failure message
in list order, checking the address before the amount for each entry. -/
def validateRecipients : List Recipient → Option String
  | [] => none
  | r :: rest =>
    if ¬ isValidAddress r.address then some (invalidBulkAddressMessage r.address)
    else if r.amount ≤ 0 then some amountNotPositiveMessage
    else validateRecipients rest

/-- The transaction request built for one bulk recipient (source lines
489-499): the hardcoded wei value and gas `0x5208`. -/
def sendTxOf (acct : String) (r : Recipient) : TxParams :=
  ⟨acct, r.address, hardcodedWei, 0x5208⟩

/-- The submission loop of `sendBulkPayment` (source lines 482-510),
threading the call index, `lastTxHash`, `totalNetAmount` and
`failedTransactions` accumulators; returns their final values together
with the ordered list of issued `eth_sendTransaction` requests.  Note
that `totalNetAmount` is incremented BEFORE the submission, so it grows
even for a failed item. -/
def processBulkPayments (eth : Provider) (acct : String) :
    Nat → String → ℚ → Nat → List Recipient → String × ℚ × Nat × List TxParams
  | _, lastTxHash, totalNetAmount, failedTransactions, [] =>
    (lastTxHash, totalNetAmount, failedTransactions, [])
  | i, lastTxHash, totalNetAmount, failedTransactions, r :: rest =>
    let netAmount := hardcodedAmount
    let totalNet := totalNetAmount + netAmount
    let tx := sendTxOf acct r
    match eth.sendTransaction i tx with
    | .ok h =>
      let out := processBulkPayments eth acct (i + 1) h totalNet failedTransactions rest
      (out.1, out.2.1, out.2.2.1, tx :: out.2.2.2)
    | .error _ =>
      let out := processBulkPayments eth acct (i + 1) lastTxHash totalNet (failedTransactions + 1) rest
      (out.1, out.2.1, out.2.2.1, tx :: out.2.2.2)

/-- `sendBulkPayment` (source lines 418-525), returning the outcome
together with the ordered list of issued `eth_sendTransaction` requests.
`totalPlatformFee` is computed from the ORIGINAL displayed amounts;
`success` is `failedTransactions < recipients.length`; the
`failedTransactions` field is omitted (`none`) when the count is zero. -/
def sendBulkPayment (w : Window) (st : WalletState) (recipients : List Recipient)
    (includePlatformFee : Bool) : BulkTransferOutcome × List TxParams :=
  match ensureMonadNetwork w with
  | (.error e, _) => (failedBulkTransfer e.message, [])
  | (.ok _, _) =>
    if recipients.isEmpty then (failedBulkTransfer noRecipientsMessage, [])
    else
      match st.connectedAccount with
      | none => (failedBulkTransfer noWalletConnectedMessage, [])
      | some acct =>
        let validatedRecipients := recipients.map substituteRecipient
        match validateRecipients validatedRecipients with
        | some message => (failedBulkTransfer message, [])
        | none =>
          match getProvider w with
          | .error e => (failedBulkTransfer e.message, [])
          | .ok chosen =>
            let eth := providerCaps chosen
            let totalPlatformFee : ℚ :=
              if includePlatformFee then
                (recipients.map (fun r => calculatePlatformFee r.amount)).sum
              else 0
            let out := processBulkPayments eth acct 0 emptyTxHash 0 0 validatedRecipients
            ({ success := out.2.2.1 < recipients.length,
               txHash := some out.1,
               error := none,
               totalPlatformFee := if includePlatformFee then some totalPlatformFee else none,
               totalNetAmount := if includePlatformFee then some out.2.1 else none,
               failedTransactions := if out.2.2.1 > 0 then some out.2.2.1 else none },
             out.2.2.2)

/-! ## `getTransactionDetails` (source lines 539-567) -/

structure TxDetails where
  hash : String
  success : Bool
  timestamp : Nat
  gasUsed : String
  gasPrice : String
  deriving DecidableEq

def zeroHex : String := ('0' :: 'x' :: '0' :: []).asString

/-- JavaScript `s || "0x0"` on an optional string field: `undefined` and
the empty string are falsy. -/
def orZeroHex : Option String → String
  | none => zeroHex
  | some s => if s = ([] : List Char).asString then zeroHex else s

def successStatusHex : String := ('0' :: 'x' :: '1' :: []).asString

/-- The summary produced by the catch block of `getTransactionDetails`:
optimistic success with zeroed gas figures. -/
def optimisticDetails (txHash : String) (now : Nat) : TxDetails :=
  ⟨txHash, true, now, zeroHex, zeroHex⟩

/-- `getTransactionDetails` (source lines 539-567).  `now` models
`Date.now()`.  Any failure (provider resolution, transaction fetch,
receipt fetch) falls into the catch block and produces the optimistic
summary; otherwise `success` is `receipt?.status === "0x1"` and the gas
figures default to `"0x0"` when missing or empty. -/
def getTransactionDetails (w : Window) (now : Nat) (txHash : String) : TxDetails :=
  match getProvider w with
  | .error _ => optimisticDetails txHash now
  | .ok chosen =>
    let eth := providerCaps chosen
    match eth.getTransactionByHash txHash with
    | .error _ => optimisticDetails txHash now
    | .ok tx =>
      match eth.getTransactionReceipt txHash with
      | .error _ => optimisticDetails txHash now
      | .ok receipt =>
        { hash := txHash,
          success := match receipt with
            | some rc => decide (rc.status = successStatusHex)
            | none => false,
          timestamp := now,
          gasUsed := orZeroHex (receipt.map ReceiptInfo.gasUsed),
          gasPrice := orZeroHex (tx.map TxInfo.gasPrice) }

/-! ## Specification-side helpers

These restate the bulk loop's observable quantities in terms of simple
list combinators (map, countP, foldl) over the per-item submission
results, so that claims about the threaded loop have independent content. -/

/-- The submission result the provider gives for each recipient, in batch
order starting at call index `i`. -/
def submissionResults (eth : Provider) (acct : String) :
    Nat → List Recipient → List (Except RpcError String)
  | _, [] => []
  | i, r :: rest =>
    eth.sendTransaction i (sendTxOf acct r) :: submissionResults eth acct (i + 1) rest

def isOkResult : Except RpcError String → Bool
  | .ok _ => true
  | .error _ => false

/-- The hash of the last successful submission in `results`, or the
accumulator start `h0` when none succeeded. -/
def lastOkHash (h0 : String) (results : List (Except RpcError String)) : String :=
  results.foldl (fun acc x => match x with | .ok h => h | .error _ => acc) h0

/-- The number of failed submissions in `results`. -/
def countFailures (results : List (Except RpcError String)) : Nat :=
  results.countP (fun x => !(isOkResult x))

/-- The bulk submission loop computes exactly the specification-side
quantities: last successful hash, `hardcodedAmount` per processed item,
failure count, and one request per recipient in list order. -/
theorem processBulkPayments_eq (eth : Provider) (acct : String) :
    ∀ (l : List Recipient) (i : Nat) (h0 : String) (t0 : ℚ) (f0 : Nat),
    processBulkPayments eth acct i h0 t0 f0 l =
      (lastOkHash h0 (submissionResults eth acct i l),
       t0 + hardcodedAmount * l.length,
       f0 + countFailures (submissionResults eth acct i l),
       l.map (sendTxOf acct)) := by
  intro l
  induction l with
  | nil =>
    intro i h0 t0 f0
    simp [processBulkPayments, submissionResults, lastOkHash, countFailures]
  | cons r rest ih =>
    intro i h0 t0 f0
    simp only [processBulkPayments, submissionResults]
    cases hsend : eth.sendTransaction i (sendTxOf acct r) with
    | ok h =>
      simp only [ih, lastOkHash, countFailures, List.foldl_cons, List.countP_cons,
        hsend, isOkResult, Bool.not_true, List.map_cons, List.length_cons,
        Prod.mk.injEq]
      refine ⟨trivial, by push_cast; ring, ?_, trivial⟩
      simp
      try omega
    | error e =>
      simp only [ih, lastOkHash, countFailures, List.foldl_cons, List.countP_cons,
        hsend, isOkResult, Bool.not_false, List.map_cons, List.length_cons,
        Prod.mk.injEq]
      refine ⟨trivial, by push_cast; ring, ?_, trivial⟩
      simp
      try omega

/-- Substitution always yields an address accepted by `isValidAddress`
(either the original address was already valid, or it was replaced by the
valid `TEST_ADDRESS`). -/
theorem substituteAddress_valid (a : String) :
    isValidAddress (substituteAddress a) = true := by
  unfold substituteAddress
  split
  · decide
  · rename_i h
    simp only [Bool.or_eq_true, Bool.not_eq_true', not_or] at h
    simpa using h.2

/-- If every address in the list is valid and every amount is positive,
the pre-validation loop finds nothing. -/
theorem validateRecipients_eq_none (l : List Recipient)
    (haddr : ∀ r ∈ l, isValidAddress r.address = true)
    (hamt : ∀ r ∈ l, 0 < r.amount) :
    validateRecipients l = none := by
  induction l with
  | nil => rfl
  | cons r rest ih =>
    have h1 : isValidAddress r.address = true := haddr r (List.mem_cons_self r rest)
    have h2 : ¬ r.amount ≤ 0 := not_le.mpr (hamt r (List.mem_cons_self r rest))
    unfold validateRecipients
    rw [if_neg (by simp [h1]), if_neg h2]
    exact ih (fun x hx => haddr x (List.mem_cons_of_mem r hx))
      (fun x hx => hamt x (List.mem_cons_of_mem r hx))

/-- If every address in the list is valid and some amount is non-positive,
the pre-validation loop reports a failure. -/
theorem validateRecipients_isSome (l : List Recipient)
    (haddr : ∀ r ∈ l, isValidAddress r.address = true)
    (r : Recipient) (hmem : r ∈ l) (hbad : r.amount ≤ 0) :
    (validateRecipients l).isSome = true := by
  induction l with
  | nil => cases hmem
  | cons x rest ih =>
    have h1 : isValidAddress x.address = true := haddr x (List.mem_cons_self x rest)
    unfold validateRecipients
    rw [if_neg (by simp [h1])]
    rcases List.mem_cons.mp hmem with heq | hmem'
    · subst heq
      rw [if_pos hbad]
      rfl
    · by_cases hx : x.amount ≤ 0
      · rw [if_pos hx]; rfl
      · rw [if_neg hx]
        exact ih (fun y hy => haddr y (List.mem_cons_of_mem x hy)) hmem'

/-! ## Concrete fixtures for witnesses and counterexamples -/

def senderAccount : String := "0xSenderAccount"

def sampleTxHash : String := "0xdeadbeef"

/-- A provider on which every request succeeds. -/
def okProvider : Provider where
  switchChain := fun _ => .ok ()
  addChain := fun _ => .ok ()
  requestAccounts := .ok [senderAccount]
  ethAccounts := .ok [senderAccount]
  getBalance := fun _ => .ok 0
  sendTransaction := fun _ _ => .ok sampleTxHash
  getTransactionByHash := fun _ => .ok none
  getTransactionReceipt := fun _ => .ok none

/-- A `window.ethereum` that is MetaMask-flagged, has no `providers`
array, and carries the given capabilities. -/
def ethObjectOf (p : Provider) : EthObject :=
  ⟨none, true, true, p⟩

/-- A browser with only that ethereum object and no Solana wallet. -/
def windowOf (p : Provider) : Window :=
  ⟨true, ethObjectOf p, false, false⟩

def okWindow : Window := windowOf okProvider

def connectedState : WalletState := ⟨some senderAccount, some senderAccount⟩

def emptyState : WalletState := ⟨none, none⟩

/-! ## Claim theorems -/

/-- C10: the platform fee and the net amount computed by the fee
calculator partition the original amount exactly:
`calculatePlatformFee a + calculateNetAmount a = a` for every rational
amount `a`. -/
theorem platformFee_add_netAmount_eq_amount (amount : ℚ) :
    calculatePlatformFee amount + calculateNetAmount amount = amount := by
  unfold calculateNetAmount
  ring

/-- C5: whenever some recipient in the list has a non-positive amount,
`sendBulkPayment` fails the whole batch before any submission: no
`eth_sendTransaction` request is issued for any recipient (the request
trace is empty) and the outcome is a failure record, regardless of the
environment, the connection state and the fee flag. -/
theorem sendBulkPayment_nonpositive_amount_aborts
    (w : Window) (st : WalletState) (recipients : List Recipient)
    (includePlatformFee : Bool) (r : Recipient)
    (hmem : r ∈ recipients) (hbad : r.amount ≤ 0) :
    (sendBulkPayment w st recipients includePlatformFee).1.success = false ∧
    (sendBulkPayment w st recipients includePlatformFee).2 = [] := by
  unfold sendBulkPayment
  rcases hE : ensureMonadNetwork w with ⟨res, tr⟩
  cases res with
  | error e => simp [failedBulkTransfer]
  | ok u =>
    cases u
    cases hemp : recipients.isEmpty with
    | true => simp [hemp, failedBulkTransfer]
    | false =>
      simp only [hemp, Bool.false_eq_true, if_false]
      cases hacct : st.connectedAccount with
      | none => simp [failedBulkTransfer]
      | some acct =>
        have hsome : (validateRecipients (recipients.map substituteRecipient)).isSome = true := by
          refine validateRecipients_isSome _ ?_ (substituteRecipient r) ?_ ?_
          · intro x hx
            obtain ⟨y, -, rfl⟩ := List.mem_map.mp hx
            exact substituteAddress_valid y.address
          · exact List.mem_map_of_mem _ hmem
          · simpa [substituteRecipient] using hbad
        obtain ⟨msg, hmsg⟩ := Option.isSome_iff_exists.mp hsome
        simp [hmsg, failedBulkTransfer]

def badAmountRecipient : Recipient := ⟨TEST_ADDRESS, 0⟩

/-- Witness for C5: with a working provider, a connected session and one
recipient whose amount is 0, the batch fails and no transaction request is
issued. -/
theorem sendBulkPayment_nonpositive_amount_aborts_witness :
    badAmountRecipient ∈ [badAmountRecipient] ∧ badAmountRecipient.amount ≤ 0 ∧
    ((sendBulkPayment okWindow connectedState [badAmountRecipient] false).1.success = false ∧
     (sendBulkPayment okWindow connectedState [badAmountRecipient] false).2 = []) :=
  ⟨List.mem_singleton.mpr rfl, le_refl 0,
   sendBulkPayment_nonpositive_amount_aborts okWindow connectedState
     [badAmountRecipient] false badAmountRecipient
     (List.mem_singleton.mpr rfl) (le_refl 0)⟩

/-- The per-recipient submission results of a bulk call, in batch order,
as the selected provider answers them. -/
def bulkSubmissionResults (chosen : Chosen) (acct : String)
    (recipients : List Recipient) : List (Except RpcError String) :=
  submissionResults (providerCaps chosen) acct 0 (recipients.map substituteRecipient)

/-- C1: for every non-empty recipient list with an active session, a
successful network-ensure and all amounts positive, `sendBulkPayment`
submits exactly one transfer per recipient, in list order (strict
sequencing with per-item failure isolation: a failed submission only
increments the failure count and the loop continues); the outcome has
`success` true iff the failure count is strictly less than the recipient
count, carries the hash of the last successful submission (the empty
initial accumulator if none succeeded), omits `failedTransactions` when
the count is zero, and has no error. -/
theorem sendBulkPayment_loop_spec
    (w : Window) (st : WalletState) (recipients : List Recipient)
    (includePlatformFee : Bool) (chosen : Chosen) (acct : String)
    (hprov : getProvider w = .ok chosen)
    (hens : (ensureMonadNetwork w).1 = .ok ())
    (hconn : st.connectedAccount = some acct)
    (hne : recipients ≠ [])
    (hpos : ∀ r ∈ recipients, 0 < r.amount) :
    (sendBulkPayment w st recipients includePlatformFee).2 =
      (recipients.map substituteRecipient).map (sendTxOf acct) ∧
    (sendBulkPayment w st recipients includePlatformFee).1.success =
      decide (countFailures (bulkSubmissionResults chosen acct recipients) <
        recipients.length) ∧
    (sendBulkPayment w st recipients includePlatformFee).1.failedTransactions =
      (if countFailures (bulkSubmissionResults chosen acct recipients) = 0 then none
       else some (countFailures (bulkSubmissionResults chosen acct recipients))) ∧
    (sendBulkPayment w st recipients includePlatformFee).1.txHash =
      some (lastOkHash emptyTxHash (bulkSubmissionResults chosen acct recipients)) ∧
    (sendBulkPayment w st recipients includePlatformFee).1.error = none := by
  have hemp : recipients.isEmpty = false := by
    cases recipients with
    | nil => exact absurd rfl hne
    | cons a l => rfl
  have hvalid : validateRecipients (recipients.map substituteRecipient) = none := by
    refine validateRecipients_eq_none _ ?_ ?_
    · intro x hx
      obtain ⟨y, -, rfl⟩ := List.mem_map.mp hx
      exact substituteAddress_valid y.address
    · intro x hx
      obtain ⟨y, hy, rfl⟩ := List.mem_map.mp hx
      exact hpos y hy
  unfold sendBulkPayment
  rcases hE : ensureMonadNetwork w with ⟨res, tr⟩
  rw [hE] at hens
  simp only at hens
  subst hens
  simp only [hemp, Bool.false_eq_true, if_false, hconn, hvalid, hprov,
    processBulkPayments_eq, bulkSubmissionResults, Nat.zero_add, Nat.lt_irrefl]
  refine ⟨trivial, by simp, ?_, trivial, trivial⟩
  cases countFailures (submissionResults (providerCaps chosen) acct 0
    (recipients.map substituteRecipient)) with
  | zero => simp
  | succ n => simp

def firstBulkHash : String := "0xhash1"

def lastBulkHash : String := "0xhash3"

def submitRejectedMessage : String := "user rejected"

/-- A provider that rejects the second submission (call index 1) of a
batch and accepts the others. -/
def flakyProvider : Provider :=
  { okProvider with
    sendTransaction := fun i _ =>
      if i = 0 then .ok firstBulkHash
      else if i = 2 then .ok lastBulkHash
      else .error ⟨none, submitRejectedMessage⟩ }

def flakyWindow : Window := windowOf flakyProvider

def bulkRecipients : List Recipient :=
  [⟨TEST_ADDRESS, 1⟩, ⟨TEST_ADDRESS, 2⟩, ⟨TEST_ADDRESS, 3⟩]

/-- Witness for C1: three recipients, the second submission rejected by
the provider: the outcome succeeds, reports one failed transaction,
carries the third submission's hash, and the request trace holds one
transfer per recipient in order. -/
theorem sendBulkPayment_loop_spec_witness :
    (sendBulkPayment flakyWindow connectedState bulkRecipients false).1.success = true ∧
    (sendBulkPayment flakyWindow connectedState bulkRecipients false).1.failedTransactions = some 1 ∧
    (sendBulkPayment flakyWindow connectedState bulkRecipients false).1.txHash = some lastBulkHash ∧
    (sendBulkPayment flakyWindow connectedState bulkRecipients false).2 =
      [⟨senderAccount, TEST_ADDRESS, hardcodedWei, 0x5208⟩,
       ⟨senderAccount, TEST_ADDRESS, hardcodedWei, 0x5208⟩,
       ⟨senderAccount, TEST_ADDRESS, hardcodedWei, 0x5208⟩] := by
  have h := sendBulkPayment_loop_spec flakyWindow connectedState bulkRecipients false
    (.eth (ethObjectOf flakyProvider)) senderAccount rfl rfl rfl
    (by simp [bulkRecipients])
    (by
      intro r hr
      simp only [bulkRecipients, List.mem_cons, List.mem_singleton] at hr
      rcases hr with rfl | rfl | hr
      · norm_num
      · norm_num
      · simp only [List.mem_nil_iff] at hr
        rcases hr with rfl | h0
        · norm_num
        · cases h0)
  obtain ⟨h1, h2, h3, h4, h5⟩ := h
  refine ⟨?_, ?_, ?_, ?_⟩
  · rw [h2]; decide
  · rw [h3]; decide
  · rw [h4]; decide
  · rw [h1]; rfl

/-- C6 (amended): with the fee flag enabled and under the same
preconditions as C1, the returned `totalPlatformFee` is the sum of the
platform fees of the DISPLAYED amounts (reporting only), while
`totalNetAmount` is the hardcoded on-chain amount times the number of
recipients — it is accumulated from the fixed 0.1 MON per item, not from
the displayed amounts. -/
theorem sendBulkPayment_fee_totals
    (w : Window) (st : WalletState) (recipients : List Recipient)
    (chosen : Chosen) (acct : String)
    (hprov : getProvider w = .ok chosen)
    (hens : (ensureMonadNetwork w).1 = .ok ())
    (hconn : st.connectedAccount = some acct)
    (hne : recipients ≠ [])
    (hpos : ∀ r ∈ recipients, 0 < r.amount) :
    (sendBulkPayment w st recipients true).1.totalPlatformFee =
      some ((recipients.map (fun r => calculatePlatformFee r.amount)).sum) ∧
    (sendBulkPayment w st recipients true).1.totalNetAmount =
      some (hardcodedAmount * recipients.length) := by
  have hemp : recipients.isEmpty = false := by
    cases recipients with
    | nil => exact absurd rfl hne
    | cons a l => rfl
  have hvalid : validateRecipients (recipients.map substituteRecipient) = none := by
    refine validateRecipients_eq_none _ ?_ ?_
    · intro x hx
      obtain ⟨y, -, rfl⟩ := List.mem_map.mp hx
      exact substituteAddress_valid y.address
    · intro x hx
      obtain ⟨y, hy, rfl⟩ := List.mem_map.mp hx
      exact hpos y hy
  unfold sendBulkPayment
  rcases hE : ensureMonadNetwork w with ⟨res, tr⟩
  rw [hE] at hens
  simp only at hens
  subst hens
  simp only [hemp, Bool.false_eq_true, if_false, hconn, hvalid, hprov,
    processBulkPayments_eq, List.length_map, zero_add, if_true]
  exact ⟨trivial, trivial⟩

def bigRecipient : Recipient := ⟨TEST_ADDRESS, 1000⟩

/-- Witness for C6 (amended): one recipient with displayed amount 1000
and the fee flag on. -/
theorem sendBulkPayment_fee_totals_witness :
    (sendBulkPayment okWindow connectedState [bigRecipient] true).1.totalPlatformFee =
      some (([bigRecipient].map (fun r => calculatePlatformFee r.amount)).sum) ∧
    (sendBulkPayment okWindow connectedState [bigRecipient] true).1.totalNetAmount =
      some (hardcodedAmount * ([bigRecipient] : List Recipient).length) :=
  sendBulkPayment_fee_totals okWindow connectedState [bigRecipient]
    (.eth (ethObjectOf okProvider)) senderAccount rfl rfl rfl (by simp)
    (by
      intro r hr
      rw [List.mem_singleton] at hr
      subst hr
      norm_num [bigRecipient])

/-- Counterexample to C6 as stated: one recipient with displayed amount
1000, fee flag on, every submission succeeding.  The returned
`totalNetAmount` is 0.1 (the hardcoded per-item on-chain amount), which
differs from the aggregate net of the displayed amounts,
`calculateNetAmount 1000 = 995`; `totalPlatformFee` does follow the
displayed amounts. -/
theorem sendBulkPayment_totalNetAmount_counterexample :
    (sendBulkPayment okWindow connectedState [bigRecipient] true).1.totalNetAmount =
      some (1/10) ∧
    (sendBulkPayment okWindow connectedState [bigRecipient] true).1.totalPlatformFee =
      some (calculatePlatformFee 1000) ∧
    ((1 : ℚ)/10) ≠ calculateNetAmount 1000 := by
  have hvalid : validateRecipients [substituteRecipient bigRecipient] = none := by
    refine validateRecipients_eq_none _ ?_ ?_
    · intro x hx
      rw [List.mem_singleton] at hx
      subst hx
      exact substituteAddress_valid bigRecipient.address
    · intro x hx
      rw [List.mem_singleton] at hx
      subst hx
      norm_num [substituteRecipient, bigRecipient]
  unfold sendBulkPayment
  rw [show ensureMonadNetwork okWindow =
    (Except.ok (), [ChainCall.switchChain MONAD_CONFIG.chainIdHex]) from rfl]
  simp only [connectedState, hvalid,
    show getProvider okWindow = Except.ok (Chosen.eth (ethObjectOf okProvider)) from rfl,
    processBulkPayments_eq, List.isEmpty_cons, Bool.false_eq_true, if_false,
    List.length_map, List.length_singleton, zero_add, if_true,
    List.map_singleton, List.sum_singleton]
  refine ⟨?_, ?_, ?_⟩
  · norm_num [hardcodedAmount]
  · rfl
  · norm_num [calculateNetAmount, calculatePlatformFee, feePercentage]

/-- C2 (amended): when the chain-switch request fails with code 4902, the
ensurer issues exactly one add-chain request and does not retry the
switch, and it returns success exactly when that add-chain request
succeeds, propagating an add-chain failure otherwise; the add-chain
request carries the chain id (hex), the chain name, the native currency
and the rpc URL of the chain configuration, but only the FIRST
block-explorer URL, not the full explorer sequence.  When the switch
fails with any other code, that failure propagates unchanged after the
single switch attempt. -/
theorem ensureMonadNetwork_switch_failure
    (w : Window) (chosen : Chosen) (e : RpcError)
    (hins : isWalletInstalled w = true)
    (hprov : getProvider w = .ok chosen)
    (hsw : (providerCaps chosen).switchChain MONAD_CONFIG.chainIdHex = .error e) :
    (e.code = some 4902 →
      (ensureMonadNetwork w).2 =
        [.switchChain MONAD_CONFIG.chainIdHex, .addChain monadChainParams] ∧
      (ensureMonadNetwork w).1 = (providerCaps chosen).addChain monadChainParams) ∧
    (e.code ≠ some 4902 →
      (ensureMonadNetwork w).1 = .error e ∧
      (ensureMonadNetwork w).2 = [.switchChain MONAD_CONFIG.chainIdHex]) ∧
    monadChainParams.chainId = MONAD_CONFIG.chainIdHex ∧
    monadChainParams.chainName = "Monad Testnet" ∧
    monadChainParams.nativeCurrency = MONAD_CONFIG.nativeCurrency ∧
    monadChainParams.rpcUrls = [MONAD_CONFIG.rpcUrl] ∧
    monadChainParams.blockExplorerUrls = MONAD_CONFIG.explorers.take 1 := by
  refine ⟨?_, ?_, rfl, rfl, rfl, rfl, rfl⟩
  · intro h4902
    unfold ensureMonadNetwork
    simp only [hins, Bool.not_true, Bool.false_eq_true, if_false, hprov, hsw,
      if_pos h4902]
    cases haddc : (providerCaps chosen).addChain monadChainParams with
    | ok u => cases u; exact ⟨rfl, rfl⟩
    | error e2 => exact ⟨rfl, rfl⟩
  · intro hother
    unfold ensureMonadNetwork
    simp only [hins, Bool.not_true, Bool.false_eq_true, if_false, hprov, hsw,
      if_neg hother]
    exact ⟨rfl, rfl⟩

def chainNotRecognizedMessage : String := "Unrecognized chain ID"

def chainNotAddedError : RpcError := ⟨some 4902, chainNotRecognizedMessage⟩

def addChainFailedMessage : String := "User rejected chain add"

def addChainFailedError : RpcError := ⟨some 5000, addChainFailedMessage⟩

/-- A provider whose switch request fails with code 4902 and whose
add-chain request also fails. -/
def noAddProvider : Provider :=
  { okProvider with
    switchChain := fun _ => .error chainNotAddedError,
    addChain := fun _ => .error addChainFailedError }

def noAddWindow : Window := windowOf noAddProvider

/-- Counterexample to C2 as stated: on a provider whose switch fails with
4902 and whose add-chain request fails, `ensureMonadNetwork` does NOT
return success (it propagates the add-chain failure), and the single
add-chain request it issued carries only the first explorer URL, not the
configured block-explorer URL sequence (which has two entries). -/
theorem ensureMonadNetwork_4902_counterexample :
    (ensureMonadNetwork noAddWindow).1 = .error addChainFailedError ∧
    (ensureMonadNetwork noAddWindow).2 =
      [.switchChain MONAD_CONFIG.chainIdHex, .addChain monadChainParams] ∧
    monadChainParams.blockExplorerUrls ≠ MONAD_CONFIG.explorers := by
  exact ⟨rfl, rfl, by decide⟩

/-- A provider whose switch request fails with code 4902 and whose
add-chain request succeeds. -/
def addableProvider : Provider :=
  { okProvider with switchChain := fun _ => .error chainNotAddedError }

def addableWindow : Window := windowOf addableProvider

/-- Witness for C2 (amended): switch fails with 4902 and the add-chain
call succeeds; ensure issues the switch then the single add-chain request
and returns the add-chain outcome (success). -/
theorem ensureMonadNetwork_switch_failure_witness :
    chainNotAddedError.code = some 4902 ∧
    (ensureMonadNetwork addableWindow).2 =
      [.switchChain MONAD_CONFIG.chainIdHex, .addChain monadChainParams] ∧
    (ensureMonadNetwork addableWindow).1 =
      (providerCaps (.eth (ethObjectOf addableProvider))).addChain monadChainParams := by
  have h := ensureMonadNetwork_switch_failure addableWindow
    (.eth (ethObjectOf addableProvider)) chainNotAddedError rfl rfl rfl
  exact ⟨rfl, (h.1 rfl).1, (h.1 rfl).2⟩

/-- C3 (amended): with a positive amount, an active session and a
successful network-ensure, `sendPayment` submits exactly one transaction
carrying the fixed hardcoded on-chain value (`hardcodedWei`, decoupled
from the displayed amount) and the fixed gas limit `0x5208`.  It is
addressed to the given recipient when the recipient passes address
validation AND does not match the testing placeholder pattern
(`0x`, one or more zeros, one final hex digit); otherwise — for an
invalid recipient, or for a valid recipient matching the placeholder
pattern — it is addressed to the fallback `TEST_ADDRESS`, and in either
case the submission proceeds rather than failing. -/
theorem sendPayment_submission
    (w : Window) (st : WalletState) (recipient : String) (amount : ℚ)
    (includePlatformFee : Bool) (chosen : Chosen) (acct : String)
    (hprov : getProvider w = .ok chosen)
    (hens : (ensureMonadNetwork w).1 = .ok ())
    (hconn : st.connectedAccount = some acct)
    (hamt : 0 < amount) :
    (isValidAddress recipient = true → isPlaceholderAddress recipient = false →
      (sendPayment w st recipient amount includePlatformFee).2 =
        [⟨acct, recipient, hardcodedWei, 0x5208⟩]) ∧
    ((isValidAddress recipient = false ∨ isPlaceholderAddress recipient = true) →
      (sendPayment w st recipient amount includePlatformFee).2 =
        [⟨acct, TEST_ADDRESS, hardcodedWei, 0x5208⟩]) := by
  have key : (sendPayment w st recipient amount includePlatformFee).2 =
      [⟨acct, substituteAddress recipient, hardcodedWei, 0x5208⟩] := by
    unfold sendPayment
    rcases hE : ensureMonadNetwork w with ⟨res, tr⟩
    rw [hE] at hens
    simp only at hens
    subst hens
    rw [if_neg (by simp [substituteAddress_valid recipient]),
      if_neg (not_le.mpr hamt), hconn]
    simp only [hprov]
    cases hsend : (providerCaps chosen).sendTransaction 0
        ⟨acct, substituteAddress recipient, hardcodedWei, 0x5208⟩ with
    | ok h => simp [hsend]
    | error e => simp [hsend]
  constructor
  · intro hv hp
    have hsub : substituteAddress recipient = recipient := by
      unfold substituteAddress
      rw [if_neg (by simp [hv, hp])]
    rw [key, hsub]
  · intro hbad
    have hsub : substituteAddress recipient = TEST_ADDRESS := by
      unfold substituteAddress
      rcases hbad with hb | hb
      · rw [if_pos (by simp [hb])]
      · rw [if_pos (by simp [hb])]
    rw [key, hsub]

/-- A perfectly valid 42-character address that nonetheless matches the
testing placeholder pattern. -/
def placeholderValidAddress : String :=
  "0x0000000000000000000000000000000000000001"

/-- Counterexample to C3 as stated: `placeholderValidAddress` passes
address validation, yet the transaction `sendPayment` submits for it is
addressed to `TEST_ADDRESS`, not to the given recipient. -/
theorem sendPayment_placeholder_counterexample :
    isValidAddress placeholderValidAddress = true ∧
    (sendPayment okWindow connectedState placeholderValidAddress 5 false).2 =
      [⟨senderAccount, TEST_ADDRESS, hardcodedWei, 0x5208⟩] ∧
    TEST_ADDRESS ≠ placeholderValidAddress := by
  refine ⟨by decide, rfl, by decide⟩

/-- Witness for C3 (amended): a valid, non-placeholder recipient receives
the transfer directly. -/
theorem sendPayment_submission_witness :
    (sendPayment okWindow connectedState TEST_ADDRESS 5 false).2 =
      [⟨senderAccount, TEST_ADDRESS, hardcodedWei, 0x5208⟩] := by
  have h := sendPayment_submission okWindow connectedState TEST_ADDRESS 5 false
    (.eth (ethObjectOf okProvider)) senderAccount rfl rfl rfl (by norm_num)
  exact h.1 (by decide) (by decide)

/-- C8 (amended): when the EVM host object exposes a non-empty
sub-provider sequence, `getProvider` returns the first sub-provider whose
identity flag marks it as MetaMask when one exists; otherwise it returns
the FIRST element of the sequence provided that element exposes a working
request operation — and when the first element does not, resolution does
NOT scan later sub-providers but falls through to the host object itself
(`resolveHostObject`). -/
theorem getProvider_subProviders
    (w : Window) (ps : List SubProvider)
    (hE : w.hasEthereum = true)
    (hps : w.ethereum.providers = some ps)
    (hne : ps ≠ []) :
    (∀ p, ps.find? (fun q => q.present && q.isMetaMask) = some p →
      getProvider w = .ok (.sub p)) ∧
    (ps.find? (fun q => q.present && q.isMetaMask) = none →
      ∀ first rest, ps = first :: rest →
      ((first.present && first.hasRequest) = true →
        getProvider w = .ok (.sub first)) ∧
      ((first.present && first.hasRequest) = false →
        getProvider w = resolveHostObject w)) := by
  unfold getProvider
  rw [if_neg (by simp [hE])]
  simp only [hps]
  rw [if_pos (by simpa using List.length_pos.mpr hne)]
  constructor
  · intro p hfind
    rw [hfind]
  · intro hnone first rest hcons
    subst hcons
    rw [hnone]
    simp only [List.head?_cons]
    constructor
    · intro hreq
      rw [if_pos hreq]
    · intro hreq
      rw [if_neg (by simp [hreq])]

/-- A present sub-provider that is neither MetaMask-flagged nor exposes a
request operation. -/
def noRequestSub : SubProvider := ⟨true, false, false, okProvider⟩

/-- A present sub-provider that exposes a request operation but is not
MetaMask-flagged. -/
def requestSub : SubProvider := ⟨true, false, true, okProvider⟩

/-- A host ethereum object whose sub-provider array is
`[noRequestSub, requestSub]` and which itself is neither MetaMask-flagged
nor request-capable. -/
def bareEthObject : EthObject := ⟨some [noRequestSub, requestSub], false, false, okProvider⟩

def bareWindow : Window := ⟨true, bareEthObject, false, false⟩

/-- Counterexample to C8 as stated: no sub-provider is MetaMask-flagged
and the SECOND sub-provider is the first one exposing a working request
operation, yet `getProvider` does not return it — it fails with the
"no usable provider" error, because the fallback only considers the
first array element. -/
theorem getProvider_fallback_counterexample :
    requestSub.hasRequest = true ∧
    ([noRequestSub, requestSub].find? (fun q => q.present && q.isMetaMask)) = none ∧
    getProvider bareWindow = .error ⟨none, noUsableProviderMessage⟩ :=
  ⟨rfl, rfl, rfl⟩

def nonMetaMaskSub : SubProvider := ⟨true, false, true, okProvider⟩

def metaMaskSub : SubProvider := ⟨true, true, true, okProvider⟩

def multiEthObject : EthObject := ⟨some [nonMetaMaskSub, metaMaskSub], false, true, okProvider⟩

def multiWindow : Window := ⟨true, multiEthObject, false, false⟩

/-- Witness for C8 (amended): with `providers = [nonMetaMask, metaMask]`,
resolution returns the MetaMask-flagged entry. -/
theorem getProvider_subProviders_witness :
    getProvider multiWindow = .ok (.sub metaMaskSub) :=
  (getProvider_subProviders multiWindow [nonMetaMaskSub, metaMaskSub] rfl rfl
    (List.cons_ne_nil _ _)).1 metaMaskSub rfl

/-- C4 (amended): every failing `connectWallet` run yields an error
carrying the underlying failure's message, and the resulting state is:
unchanged for failures occurring before an account is obtained (wallet
not installed, provider resolution failure, account-request failure,
empty account list); already set and persisted to the first returned
account for failures occurring after (chain switch failing with a
non-4902 code, add-chain failure after a 4902, balance-query failure) —
the partially-completed mutation is NOT rolled back. -/
theorem connectWallet_failure_cases (w : Window) (st : WalletState)
    (m : String) (st' : WalletState)
    (h : connectWallet w st = (.error m, st')) :
    (isWalletInstalled w = false ∧ m = pleaseInstallMessage ∧ st' = st) ∨
    (∃ e, getProvider w = .error e ∧ m = e.message ∧ st' = st) ∨
    (∃ chosen e, getProvider w = .ok chosen ∧
      (providerCaps chosen).requestAccounts = .error e ∧
      m = e.message ∧ st' = st) ∨
    (∃ chosen, getProvider w = .ok chosen ∧
      (providerCaps chosen).requestAccounts = .ok [] ∧
      m = noAccountsMessage ∧ st' = st) ∨
    (∃ chosen a rest e, getProvider w = .ok chosen ∧
      (providerCaps chosen).requestAccounts = .ok (a :: rest) ∧
      (providerCaps chosen).switchChain MONAD_CONFIG.chainIdHex = .error e ∧
      e.code ≠ some 4902 ∧ m = e.message ∧ st' = ⟨some a, some a⟩) ∨
    (∃ chosen a rest e e2, getProvider w = .ok chosen ∧
      (providerCaps chosen).requestAccounts = .ok (a :: rest) ∧
      (providerCaps chosen).switchChain MONAD_CONFIG.chainIdHex = .error e ∧
      e.code = some 4902 ∧
      (providerCaps chosen).addChain monadChainParams = .error e2 ∧
      m = e2.message ∧ st' = ⟨some a, some a⟩) ∨
    (∃ chosen a rest e, getProvider w = .ok chosen ∧
      (providerCaps chosen).requestAccounts = .ok (a :: rest) ∧
      (providerCaps chosen).getBalance a = .error e ∧
      m = e.message ∧ st' = ⟨some a, some a⟩) := by
  unfold connectWallet at h
  split at h
  · rename_i hnotins
    simp only [Prod.mk.injEq, Except.error.injEq] at h
    exact Or.inl ⟨by simpa using hnotins, h.1.symm, h.2.symm⟩
  · rename_i hins
    split at h
    · rename_i e hprov
      simp only [Prod.mk.injEq, Except.error.injEq] at h
      exact Or.inr (Or.inl ⟨e, hprov, h.1.symm, h.2.symm⟩)
    · rename_i chosen hprov
      simp only [] at h
      split at h
      · rename_i e hacc
        simp only [Prod.mk.injEq, Except.error.injEq] at h
        exact Or.inr (Or.inr (Or.inl ⟨chosen, e, hprov, hacc, h.1.symm, h.2.symm⟩))
      · rename_i accounts hacc
        split at h
        · simp only [Prod.mk.injEq, Except.error.injEq] at h
          exact Or.inr (Or.inr (Or.inr (Or.inl
            ⟨chosen, hprov, hacc, h.1.symm, h.2.symm⟩)))
        · rename_i a rest
          split at h
          · rename_i e2 hAfter
            split at hAfter
            · exact Except.noConfusion hAfter
            · rename_i e hswErr
              split at hAfter
              · rename_i h4902
                simp only [Prod.mk.injEq, Except.error.injEq] at h
                exact Or.inr (Or.inr (Or.inr (Or.inr (Or.inr (Or.inl
                  ⟨chosen, a, rest, e, e2, hprov, hacc, hswErr, h4902, hAfter,
                    h.1.symm, h.2.symm⟩)))))
              · rename_i hnot4902
                simp only [Except.error.injEq] at hAfter
                subst hAfter
                simp only [Prod.mk.injEq, Except.error.injEq] at h
                exact Or.inr (Or.inr (Or.inr (Or.inr (Or.inl
                  ⟨chosen, a, rest, e, hprov, hacc, hswErr, hnot4902,
                    h.1.symm, h.2.symm⟩))))
          · rename_i u hAfter
            split at h
            · rename_i e hbal
              simp only [Prod.mk.injEq, Except.error.injEq] at h
              exact Or.inr (Or.inr (Or.inr (Or.inr (Or.inr (Or.inr
                ⟨chosen, a, rest, e, hprov, hacc, hbal, h.1.symm, h.2.symm⟩)))))
            · rename_i wei hbal
              simp only [Prod.mk.injEq] at h
              exact absurd h.1 (by simp)

def switchRefusedMessage : String := "User rejected switch"

def switchRefusedError : RpcError := ⟨some 4001, switchRefusedMessage⟩

/-- A provider that returns accounts but refuses the chain switch with a
non-4902 code. -/
def noSwitchProvider : Provider :=
  { okProvider with switchChain := fun _ => .error switchRefusedError }

def noSwitchWindow : Window := windowOf noSwitchProvider

/-- Counterexample to C4 as stated: starting from the empty connection
state, a connect run that fails at the chain-switch step (code 4001)
yields the error, but the connection state is NOT the same as before the
call — the account has already been stored and persisted. -/
theorem connectWallet_state_counterexample :
    (connectWallet noSwitchWindow emptyState).1 = .error switchRefusedMessage ∧
    (connectWallet noSwitchWindow emptyState).2 =
      ⟨some senderAccount, some senderAccount⟩ ∧
    (⟨some senderAccount, some senderAccount⟩ : WalletState) ≠ emptyState :=
  ⟨rfl, rfl, by decide⟩

/-- Witness for C4 (amended): the switch-refused run instantiates the
failure-case characterization. -/
theorem connectWallet_failure_cases_witness :
    (isWalletInstalled noSwitchWindow = false ∧
      switchRefusedMessage = pleaseInstallMessage ∧
      (⟨some senderAccount, some senderAccount⟩ : WalletState) = emptyState) ∨
    (∃ e, getProvider noSwitchWindow = .error e ∧
      switchRefusedMessage = e.message ∧
      (⟨some senderAccount, some senderAccount⟩ : WalletState) = emptyState) ∨
    (∃ chosen e, getProvider noSwitchWindow = .ok chosen ∧
      (providerCaps chosen).requestAccounts = .error e ∧
      switchRefusedMessage = e.message ∧
      (⟨some senderAccount, some senderAccount⟩ : WalletState) = emptyState) ∨
    (∃ chosen, getProvider noSwitchWindow = .ok chosen ∧
      (providerCaps chosen).requestAccounts = .ok [] ∧
      switchRefusedMessage = noAccountsMessage ∧
      (⟨some senderAccount, some senderAccount⟩ : WalletState) = emptyState) ∨
    (∃ chosen a rest e, getProvider noSwitchWindow = .ok chosen ∧
      (providerCaps chosen).requestAccounts = .ok (a :: rest) ∧
      (providerCaps chosen).switchChain MONAD_CONFIG.chainIdHex = .error e ∧
      e.code ≠ some 4902 ∧ switchRefusedMessage = e.message ∧
      (⟨some senderAccount, some senderAccount⟩ : WalletState) = ⟨some a, some a⟩) ∨
    (∃ chosen a rest e e2, getProvider noSwitchWindow = .ok chosen ∧
      (providerCaps chosen).requestAccounts = .ok (a :: rest) ∧
      (providerCaps chosen).switchChain MONAD_CONFIG.chainIdHex = .error e ∧
      e.code = some 4902 ∧
      (providerCaps chosen).addChain monadChainParams = .error e2 ∧
      switchRefusedMessage = e2.message ∧
      (⟨some senderAccount, some senderAccount⟩ : WalletState) = ⟨some a, some a⟩) ∨
    (∃ chosen a rest e, getProvider noSwitchWindow = .ok chosen ∧
      (providerCaps chosen).requestAccounts = .ok (a :: rest) ∧
      (providerCaps chosen).getBalance a = .error e ∧
      switchRefusedMessage = e.message ∧
      (⟨some senderAccount, some senderAccount⟩ : WalletState) = ⟨some a, some a⟩) :=
  connectWallet_failure_cases noSwitchWindow emptyState switchRefusedMessage
    ⟨some senderAccount, some senderAccount⟩ rfl

/-- C7 (amended): every `reconnectWallet` run resolves (never raises) to
either `none` — with the state unchanged when the failure or empty result
occurs at or before the non-prompting account query, but with the state
already set and persisted to the first returned account when the balance
query is what failed — or to the first returned account with its balance,
in which case the state is set to that account and persisted. -/
theorem reconnectWallet_cases (w : Window) (st : WalletState)
    (out : Option ConnectResult) (st' : WalletState)
    (h : reconnectWallet w st = (out, st')) :
    (out = none ∧
      (st' = st ∨
       ∃ chosen a rest e, getProvider w = .ok chosen ∧
         (providerCaps chosen).ethAccounts = .ok (a :: rest) ∧
         (providerCaps chosen).getBalance a = .error e ∧
         st' = ⟨some a, some a⟩)) ∨
    (∃ chosen a rest wei, getProvider w = .ok chosen ∧
      (providerCaps chosen).ethAccounts = .ok (a :: rest) ∧
      (providerCaps chosen).getBalance a = .ok wei ∧
      out = some ⟨a, (wei : ℚ) / 10 ^ 18⟩ ∧
      st' = ⟨some a, some a⟩) := by
  unfold reconnectWallet at h
  split at h
  · simp only [Prod.mk.injEq] at h
    exact Or.inl ⟨h.1.symm, Or.inl h.2.symm⟩
  · rename_i hins
    split at h
    · rename_i e hprov
      simp only [Prod.mk.injEq] at h
      exact Or.inl ⟨h.1.symm, Or.inl h.2.symm⟩
    · rename_i chosen hprov
      simp only [] at h
      split at h
      · rename_i e hacc
        simp only [Prod.mk.injEq] at h
        exact Or.inl ⟨h.1.symm, Or.inl h.2.symm⟩
      · rename_i hacc
        simp only [Prod.mk.injEq] at h
        exact Or.inl ⟨h.1.symm, Or.inl h.2.symm⟩
      · rename_i acct rest hacc
        split at h
        · rename_i e hbal
          simp only [Prod.mk.injEq] at h
          exact Or.inl ⟨h.1.symm,
            Or.inr ⟨chosen, acct, rest, e, hprov, hacc, hbal, h.2.symm⟩⟩
        · rename_i wei hbal
          simp only [Prod.mk.injEq] at h
          exact Or.inr ⟨chosen, acct, rest, wei, hprov, hacc, hbal,
            h.1.symm, h.2.symm⟩

def balanceFailedMessage : String := "balance unavailable"

def balanceFailedError : RpcError := ⟨none, balanceFailedMessage⟩

/-- A provider whose non-prompting account query succeeds but whose
balance query fails. -/
def noBalanceProvider : Provider :=
  { okProvider with getBalance := fun _ => .error balanceFailedError }

def noBalanceWindow : Window := windowOf noBalanceProvider

/-- Counterexample to C7 as stated: starting from the empty state, a
reconnect whose balance query fails resolves to `none`, yet the
connection state has been changed — the account was already stored and
persisted. -/
theorem reconnectWallet_state_counterexample :
    (reconnectWallet noBalanceWindow emptyState).1 = none ∧
    (reconnectWallet noBalanceWindow emptyState).2 =
      ⟨some senderAccount, some senderAccount⟩ ∧
    (⟨some senderAccount, some senderAccount⟩ : WalletState) ≠ emptyState :=
  ⟨rfl, rfl, by decide⟩

/-- Witness for C7 (amended): a fully successful silent reconnect sets
the state to the returned account, persists it, and returns the account
with its balance. -/
theorem reconnectWallet_cases_witness :
    ((some (⟨senderAccount, ((0 : ℕ) : ℚ) / 10 ^ 18⟩ : ConnectResult) = none ∧
      ((⟨some senderAccount, some senderAccount⟩ : WalletState) = emptyState ∨
       ∃ chosen a rest e, getProvider okWindow = .ok chosen ∧
         (providerCaps chosen).ethAccounts = .ok (a :: rest) ∧
         (providerCaps chosen).getBalance a = .error e ∧
         (⟨some senderAccount, some senderAccount⟩ : WalletState) = ⟨some a, some a⟩)) ∨
    (∃ chosen a rest wei, getProvider okWindow = .ok chosen ∧
      (providerCaps chosen).ethAccounts = .ok (a :: rest) ∧
      (providerCaps chosen).getBalance a = .ok wei ∧
      some (⟨senderAccount, ((0 : ℕ) : ℚ) / 10 ^ 18⟩ : ConnectResult) =
        some ⟨a, (wei : ℚ) / 10 ^ 18⟩ ∧
      (⟨some senderAccount, some senderAccount⟩ : WalletState) = ⟨some a, some a⟩)) :=
  reconnectWallet_cases okWindow emptyState
    (some ⟨senderAccount, ((0 : ℕ) : ℚ) / 10 ^ 18⟩)
    ⟨some senderAccount, some senderAccount⟩ rfl

/-- C9: for every transaction hash, when the transaction fetch fails, or
when it succeeds and the receipt fetch fails, `getTransactionDetails`
does not propagate the error: it returns the optimistic summary for that
hash (success asserted, gas figures zeroed); when both fetches succeed,
the summary keeps the hash and its success flag is true iff the receipt
is present with status equal to the success bit `"0x1"`. -/
theorem getTransactionDetails_spec
    (w : Window) (now : Nat) (txHash : String) (chosen : Chosen)
    (hprov : getProvider w = .ok chosen) :
    (∀ e, (providerCaps chosen).getTransactionByHash txHash = .error e →
      getTransactionDetails w now txHash = optimisticDetails txHash now) ∧
    (∀ tx e, (providerCaps chosen).getTransactionByHash txHash = .ok tx →
      (providerCaps chosen).getTransactionReceipt txHash = .error e →
      getTransactionDetails w now txHash = optimisticDetails txHash now) ∧
    (∀ tx receipt, (providerCaps chosen).getTransactionByHash txHash = .ok tx →
      (providerCaps chosen).getTransactionReceipt txHash = .ok receipt →
      (getTransactionDetails w now txHash).hash = txHash ∧
      (getTransactionDetails w now txHash).timestamp = now ∧
      (getTransactionDetails w now txHash).success =
        (match receipt with
         | some rc => decide (rc.status = successStatusHex)
         | none => false)) := by
  refine ⟨?_, ?_, ?_⟩
  · intro e he
    unfold getTransactionDetails
    simp only [hprov, he]
  · intro tx e h1 h2
    unfold getTransactionDetails
    simp only [hprov, h1, h2]
  · intro tx receipt h1 h2
    unfold getTransactionDetails
    simp only [hprov, h1, h2]
    exact ⟨trivial, trivial, trivial⟩

def fetchFailedMessage : String := "fetch failed"

def fetchFailedError : RpcError := ⟨none, fetchFailedMessage⟩

/-- A provider whose transaction fetch fails. -/
def noFetchProvider : Provider :=
  { okProvider with getTransactionByHash := fun _ => .error fetchFailedError }

def noFetchWindow : Window := windowOf noFetchProvider

/-- Witness for C9: a failing transaction fetch degrades to the
optimistic summary. -/
theorem getTransactionDetails_spec_witness :
    getTransactionDetails noFetchWindow 12345 sampleTxHash =
      optimisticDetails sampleTxHash 12345 :=
  (getTransactionDetails_spec noFetchWindow 12345 sampleTxHash
    (.eth (ethObjectOf noFetchProvider)) rfl).1 fetchFailedError rfl
